import Mathlib

/-!
Shallow embedding of the cognito-local user-pool emulator, covering the
attribute helpers and `UserPoolServiceImpl` of `src/services/userPoolService.ts`,
the `InitiateAuth` target of `src/targets/initiateAuth.ts`, the admin targets
`AdminGetUser` and `AdminDeleteUserAttributes`, `DescribeUserPool`, and the
response mapping of `LambdaService.invoke`.

Conventions of the embedding:
* a TypeScript value of type `string | undefined` becomes `Option String`;
  JavaScript truthiness of such a value is `strTruthy` below (both `undefined`
  and the empty string are falsy);
* a JavaScript object used as a string-keyed record becomes an association
  list `List (String × _)` in insertion order, with `recordSet` giving the
  object-assignment semantics (overwriting keeps the key's position, a new
  key goes to the end) and `recordDelete` the `delete` operator;
* thrown errors become `Except CognitoError`;
* external collaborators (OTP generator, UUID source, token generator,
  triggers, message delivery) are inputs of the modelled functions, and the
  calls a flow makes to them are recorded in a trace of `Effect`s.
-/

namespace CognitoLocal

/-- Truthiness of a `string | undefined` JavaScript value. -/
def strTruthy : Option String → Bool
  | none => false
  | some s => !s.isEmpty

/-- JavaScript object assignment `r[k] = v` on a string-keyed record:
an existing key keeps its position and gets the new value, a new key is
appended at the end. -/
def recordSet (r : List (String × Option String)) (k : String) (v : Option String) :
    List (String × Option String) :=
  if r.any (fun p => p.1 = k) then
    r.map (fun p => if p.1 = k then (k, v) else p)
  else
    r ++ [(k, v)]

/-- JavaScript `delete r[k]` on a string-keyed record. -/
def recordDelete (r : List (String × Option String)) (k : String) :
    List (String × Option String) :=
  r.filter (fun p => p.1 ≠ k)

/-- One `{Name, Value}` attribute (`AttributeType` of the AWS SDK; `Value`
is optional on the wire). -/
structure UserAttribute where
  Name : String
  Value : Option String
deriving DecidableEq, Repr

/-- One entry of a user's `MFAOptions` (`MFAOptionType` of the AWS SDK,
both fields optional). -/
structure MFAOptionT where
  DeliveryMedium : Option String
  AttributeName : Option String
deriving DecidableEq, Repr

/-- One entry of the pool's `SchemaAttributes` (`SchemaAttributeType`,
both fields optional). -/
structure SchemaAttribute where
  Name : Option String
  Mutable : Option Bool
deriving DecidableEq, Repr

/-- `attributesIncludeMatch` from `userPoolService.ts`. -/
def attributesIncludeMatch (attributeName attributeVal : String)
    (attributes : List UserAttribute) : Bool :=
  attributes.any (fun x => x.Name = attributeName && x.Value = some attributeVal)

/-- `attributesInclude` from `userPoolService.ts`. -/
def attributesInclude (attributeName : String)
    (attributes : List UserAttribute) : Bool :=
  attributes.any (fun x => x.Name = attributeName)

/-- `attributeValue` from `userPoolService.ts`: the `Value` of the first
attribute with the given `Name` (`undefined` when the name is `undefined`,
absent, or the found attribute has no value). -/
def attributeValue (attributeName : Option String)
    (attributes : List UserAttribute) : Option String :=
  (attributes.find? (fun x => some x.Name = attributeName)).bind (fun x => x.Value)

/-- `attributesToRecord` from `userPoolService.ts`: a `reduce` that builds a
JavaScript object keyed by attribute name. -/
def attributesToRecord (attributes : List UserAttribute) :
    List (String × Option String) :=
  attributes.foldl (fun acc attr => recordSet acc attr.Name attr.Value) []

/-- `attributesFromRecord` from `userPoolService.ts` (`Object.entries`). -/
def attributesFromRecord (r : List (String × Option String)) :
    List UserAttribute :=
  r.map (fun p => ⟨p.1, p.2⟩)

/-- `attributesAppend` from `userPoolService.ts`. -/
def attributesAppend (attributes : List UserAttribute)
    (toAppend : List UserAttribute) : List UserAttribute :=
  attributesFromRecord <|
    toAppend.foldl
      (fun acc attr =>
        if strTruthy attr.Value then recordSet acc attr.Name attr.Value
        else recordDelete acc attr.Name)
      (attributesToRecord attributes)

/-- `attributesRemove` from `userPoolService.ts`. -/
def attributesRemove (attributes : List UserAttribute)
    (toRemove : List String) : List UserAttribute :=
  attributes.filter (fun x => !toRemove.contains x.Name)

/-- The `User` record of `userPoolService.ts` (dates as epoch naturals). -/
structure User where
  Username : String
  UserCreateDate : Nat
  UserLastModifiedDate : Nat
  Enabled : Bool
  UserStatus : String
  Attributes : List UserAttribute
  MFAOptions : Option (List MFAOptionT)
  Password : String
  MFACode : Option String
  RefreshTokens : List String
deriving DecidableEq, Repr

/-- The semantic fields of a `UserPool` configuration. -/
structure UserPoolConfig where
  Id : String
  Name : Option String
  UsernameAttributes : Option (List String)
  MfaConfiguration : Option String
  SchemaAttributes : Option (List SchemaAttribute)
  CreationDate : Option Nat
  LastModifiedDate : Option Nat
deriving DecidableEq, Repr

/-- The `Users` collection of one pool's data store: a JavaScript object
keyed by username, in insertion order. -/
abbrev StoreUsers := List (String × User)

/-- Lookup of `dataStore.get(["Users", username])`. -/
def storeGetUser (users : StoreUsers) (username : String) : Option User :=
  (users.find? (fun p => p.1 = username)).map (fun p => p.2)

/-- `dataStore.set(["Users", u.Username], u)`: JavaScript object assignment. -/
def storeSetUser (users : StoreUsers) (u : User) : StoreUsers :=
  if users.any (fun p => p.1 = u.Username) then
    users.map (fun p => if p.1 = u.Username then (u.Username, u) else p)
  else
    users ++ [(u.Username, u)]

/-- The error taxonomy of `src/errors.ts` (only the constructors the modelled
operations raise). -/
inductive CognitoError where
  | invalidParameter (msg : String)
  | invalidPassword
  | notAuthorized
  | passwordResetRequired
  | resourceNotFound (msg : String)
  | userNotFound (msg : String)
  | unsupported (msg : String)
  | unexpectedLambdaException
  | invalidLambdaResponse
  | userLambdaValidation (functionError : Option String)
  | jsError (msg : String)
deriving DecidableEq, Repr

/-- Discriminator for `UserNotFoundError`. -/
def CognitoError.isUserNotFound : CognitoError → Bool
  | .userNotFound _ => true
  | _ => false

/-! JSON serialization, as performed by `JSON.stringify` on a
`Record<string, string | undefined>` (keys with `undefined` values are
omitted; strings are escaped). -/

/-- Escape of a single character inside a JSON string literal. -/
def jsonEscapeChar (c : Char) : String :=
  if c = '"' then "\\\""
  else if c = '\\' then "\\\\"
  else if c = '\n' then "\\n"
  else if c = '\r' then "\\r"
  else if c = '\t' then "\\t"
  else if c = '\x08' then "\\b"
  else if c = '\x0c' then "\\f"
  else if c.toNat < 0x20 then
    "\\u00" ++ String.singleton (Nat.digitChar (c.toNat / 16)) ++
      String.singleton (Nat.digitChar (c.toNat % 16))
  else String.singleton c

/-- JSON string literal for `s`. -/
def jsonQuote (s : String) : String :=
  "\"" ++ String.join (s.data.map jsonEscapeChar) ++ "\""

/-- `JSON.stringify` of a string-keyed JavaScript record; keys holding
`undefined` are dropped, insertion order is kept. -/
def jsonStringifyRecord (r : List (String × Option String)) : String :=
  "\x7b" ++
    String.intercalate ","
      ((r.filterMap (fun p => p.2.map (fun v => (p.1, v)))).map
        (fun p => jsonQuote p.1 ++ ":" ++ jsonQuote p.2)) ++
  "\x7d"

/-! The user lookup operations of `UserPoolServiceImpl`. -/

/-- The scan loop of `UserPoolServiceImpl.getUserByUsername`: walks the
`Users` collection in insertion order and returns the first user whose
`sub`, or (when the alias is enabled) `email` or `phone_number` attribute
matches. -/
def scanUsersForAlias (aliasEmailEnabled aliasPhoneNumberEnabled : Bool)
    (username : String) : List User → Option User
  | [] => none
  | user :: rest =>
    if attributesIncludeMatch "sub" username user.Attributes then some user
    else if aliasEmailEnabled &&
        attributesIncludeMatch "email" username user.Attributes then some user
    else if aliasPhoneNumberEnabled &&
        attributesIncludeMatch "phone_number" username user.Attributes then some user
    else scanUsersForAlias aliasEmailEnabled aliasPhoneNumberEnabled username rest

/-- `UserPoolServiceImpl.getUserByUsername`. -/
def getUserByUsername (config : UserPoolConfig) (users : StoreUsers)
    (username : String) : Option User :=
  let aliasEmailEnabled := (config.UsernameAttributes.getD []).contains "email"
  let aliasPhoneNumberEnabled :=
    (config.UsernameAttributes.getD []).contains "phone_number"
  match storeGetUser users username with
  | some userByUsername => some userByUsername
  | none =>
      scanUsersForAlias aliasEmailEnabled aliasPhoneNumberEnabled username
        (users.map (fun p => p.2))

/-- `UserPoolServiceImpl.getUserByRefreshToken`: linear scan of the users
for membership of the token in `RefreshTokens`. -/
def getUserByRefreshToken (users : StoreUsers) (refreshToken : String) :
    Option User :=
  (users.map (fun p => p.2)).find? (fun user => user.RefreshTokens.contains refreshToken)

/-- `UserPoolServiceImpl.storeRefreshToken`: appends the token to the given
user's `RefreshTokens` and persists the user via `saveUser`. -/
def storeRefreshToken (users : StoreUsers) (refreshToken : String)
    (user : User) : StoreUsers :=
  storeSetUser users { user with RefreshTokens := user.RefreshTokens ++ [refreshToken] }

/-- `validatePermittedAttributeChanges` schema loop: the first error raised
while walking the requested attributes, `none` when all pass. The schema
entry consulted for a name is the first entry with that name (`find`), and
a `Mutable` that is absent or `false` rejects. -/
def findSchemaError (schemaAttributes : List SchemaAttribute) :
    List UserAttribute → Option CognitoError
  | [] => none
  | attr :: rest =>
    match schemaAttributes.find? (fun x => x.Name = some attr.Name) with
    | none =>
        some (.invalidParameter
          ("user." ++ attr.Name ++ ": Attribute does not exist in the schema."))
    | some attrSchema =>
        if attrSchema.Mutable = some true then findSchemaError schemaAttributes rest
        else
          some (.invalidParameter
            ("user." ++ attr.Name ++
              ": Attribute cannot be updated. (changing an immutable attribute)"))

/-- `validatePermittedAttributeChanges` from `userPoolService.ts`. -/
def validatePermittedAttributeChanges (requestAttributes : List UserAttribute)
    (schemaAttributes : List SchemaAttribute) :
    Except CognitoError (List UserAttribute) :=
  match findSchemaError schemaAttributes requestAttributes with
  | some e => .error e
  | none =>
    if attributesInclude "email_verified" requestAttributes &&
        !attributesInclude "email" requestAttributes then
      .error (.invalidParameter "Email is required to verify/un-verify an email")
    else if attributesInclude "phone_number_verified" requestAttributes &&
        !attributesInclude "phone_number" requestAttributes then
      .error (.invalidParameter
        "Phone Number is required to verify/un-verify a phone number")
    else .ok requestAttributes

/-! The `InitiateAuth` target of `src/targets/initiateAuth.ts`. External
collaborators are inputs (`FlowCollab`), and each call a flow makes to a
stateful collaborator is recorded as an `Effect`. -/

/-- Client metadata maps (`Record<string, string>` on the wire). -/
abbrev ClientMeta := Option (List (String × String))

/-- The token triple produced by `services.tokenGenerator.generate`. -/
structure TokenTriple where
  AccessToken : String
  IdToken : String
  RefreshToken : String
deriving DecidableEq, Repr

/-- The `AuthParameters` map of an `InitiateAuth` request (only the keys the
target reads). -/
structure AuthParams where
  USERNAME : String
  PASSWORD : Option String
  REFRESH_TOKEN : Option String
deriving DecidableEq, Repr

/-- An `InitiateAuth` request. -/
structure InitiateAuthReq where
  AuthFlow : String
  ClientId : String
  AuthParameters : Option AuthParams
  ClientMetadata : ClientMeta
deriving DecidableEq, Repr

/-- The `AuthenticationResult` portion of an `InitiateAuth` response. -/
structure AuthResultOut where
  AccessToken : Option String
  IdToken : Option String
  RefreshToken : Option String
deriving DecidableEq, Repr

/-- An `InitiateAuth` response. -/
structure InitiateAuthResp where
  ChallengeName : Option String
  ChallengeParameters : Option (List (String × String))
  Session : Option String
  AuthenticationResult : Option AuthResultOut
deriving DecidableEq, Repr

/-- A call made by a flow to a stateful collaborator. -/
inductive Effect where
  | deliverMessage (source clientId userPoolId username code : String)
      (clientMetadata : ClientMeta) (deliveryMedium : String)
      (attributeName : Option String) (destination : String)
  | saveUser (u : User)
  | generateTokens (username clientId userPoolId : String)
      (clientMetadata : ClientMeta) (source : String)
  | storeToken (refreshToken username : String)
  | invokePostAuthentication (clientId : String) (clientMetadata : ClientMeta)
      (source username : String)
  | invokeUserMigration (clientId username : String) (password : Option String)
      (clientMetadata : ClientMeta) (validationData : ClientMeta)
deriving DecidableEq, Repr

/-- The collaborators an `InitiateAuth` flow consults: the OTP drawn by
`services.otp()`, the UUID drawn by `v4()` for a challenge session, the
triple returned by the token generator, and the trigger configuration
(together with the outcome of a `UserMigration` invocation). -/
structure FlowCollab where
  otpCode : String
  sessionId : String
  tokens : TokenTriple
  postAuthenticationEnabled : Bool
  userMigrationEnabled : Bool
  migrationResult : Except CognitoError User
deriving Repr

/-- Result of a flow: a response or a thrown error, with the trace of
collaborator calls. -/
abbrev FlowOut := Except CognitoError InitiateAuthResp × List Effect

/-- `verifyMfaChallenge` from `initiateAuth.ts`. -/
def verifyMfaChallenge (user : User) (clientId : String) (config : UserPoolConfig)
    (clientMetadata : ClientMeta) (c : FlowCollab) : FlowOut :=
  match user.MFAOptions with
  | none => (.error .notAuthorized, [])
  | some opts =>
    if opts.isEmpty then (.error .notAuthorized, [])
    else
      match opts.find? (fun x => x.DeliveryMedium = some "SMS") with
      | none => (.error (.unsupported "MFA challenge without SMS"), [])
      | some smsMfaOption =>
        match attributeValue smsMfaOption.AttributeName user.Attributes with
        | none =>
            (.error (.unsupported
              ("SMS_MFA without " ++ smsMfaOption.AttributeName.getD "undefined")), [])
        | some deliveryDestination =>
          if deliveryDestination.isEmpty then
            (.error (.unsupported
              ("SMS_MFA without " ++ smsMfaOption.AttributeName.getD "undefined")), [])
          else
            (.ok
              { ChallengeName := some "SMS_MFA"
                ChallengeParameters := some
                  [("CODE_DELIVERY_DELIVERY_MEDIUM", "SMS"),
                   ("CODE_DELIVERY_DESTINATION", deliveryDestination),
                   ("USER_ID_FOR_SRP", user.Username)]
                Session := none
                AuthenticationResult := none },
             [.deliverMessage "Authentication" clientId config.Id user.Username
                c.otpCode clientMetadata "SMS" smsMfaOption.AttributeName
                deliveryDestination,
              .saveUser { user with MFACode := some c.otpCode }])

/-- `verifyPasswordChallenge` from `initiateAuth.ts`. -/
def verifyPasswordChallenge (user : User) (clientId : String)
    (config : UserPoolConfig) (c : FlowCollab) : FlowOut :=
  (.ok
    { ChallengeName := some "PASSWORD_VERIFIER"
      ChallengeParameters := some []
      Session := none
      AuthenticationResult := some
        { AccessToken := some c.tokens.AccessToken
          IdToken := some c.tokens.IdToken
          RefreshToken := some c.tokens.RefreshToken } },
   [.generateTokens user.Username clientId config.Id none "Authentication",
    .storeToken c.tokens.RefreshToken user.Username])

/-- `newPasswordChallenge` from `initiateAuth.ts`; `sessionId` is the UUID
drawn by `v4()`. -/
def newPasswordChallenge (user : User) (sessionId : String) : InitiateAuthResp :=
  { ChallengeName := some "NEW_PASSWORD_REQUIRED"
    ChallengeParameters := some
      [("USER_ID_FOR_SRP", user.Username),
       ("requiredAttributes", "[]"),
       ("userAttributes", jsonStringifyRecord (attributesToRecord user.Attributes))]
    Session := some sessionId
    AuthenticationResult := none }

/-- Lines 166-202 of `userPasswordAuthFlow`: the decision taken once the
user has been resolved (directly or through the `UserMigration` trigger). -/
def userPasswordAuthDecision (resolvedUser : Option User) (ap : AuthParams)
    (config : UserPoolConfig) (clientId : String) (clientMetadata : ClientMeta)
    (c : FlowCollab) : FlowOut :=
  match resolvedUser with
  | none => (.error .notAuthorized, [])
  | some user =>
    if user.UserStatus = "RESET_REQUIRED" then (.error .passwordResetRequired, [])
    else if user.UserStatus = "FORCE_CHANGE_PASSWORD" then
      (.ok (newPasswordChallenge user c.sessionId), [])
    else if ap.PASSWORD ≠ some user.Password then (.error .invalidPassword, [])
    else if (config.MfaConfiguration = some "OPTIONAL" &&
              !(user.MFAOptions.getD []).isEmpty) ||
            config.MfaConfiguration = some "ON" then
      verifyMfaChallenge user clientId config clientMetadata c
    else
      let result := verifyPasswordChallenge user clientId config c
      (result.1,
       result.2 ++
         (if c.postAuthenticationEnabled then
            [Effect.invokePostAuthentication clientId none
              "PostAuthentication_Authentication" user.Username]
          else []))

/-- `userPasswordAuthFlow` from `initiateAuth.ts`: parameter check, user
resolution with the optional `UserMigration` trigger, then the decision. -/
def userPasswordAuthFlow (config : UserPoolConfig) (users : StoreUsers)
    (req : InitiateAuthReq) (c : FlowCollab) : FlowOut :=
  match req.AuthParameters with
  | none => (.error (.invalidParameter "Missing required parameter authParameters"), [])
  | some ap =>
    match getUserByUsername config users ap.USERNAME with
    | some user => userPasswordAuthDecision (some user) ap config req.ClientId
        req.ClientMetadata c
    | none =>
      if c.userMigrationEnabled then
        let migEffect := Effect.invokeUserMigration req.ClientId ap.USERNAME
          ap.PASSWORD none req.ClientMetadata
        match c.migrationResult with
        | .error e => (.error e, [migEffect])
        | .ok migrated =>
          let out := userPasswordAuthDecision (some migrated) ap config
            req.ClientId req.ClientMetadata c
          (out.1, migEffect :: out.2)
      else userPasswordAuthDecision none ap config req.ClientId req.ClientMetadata c

/-- `refreshTokenAuthFlow` from `initiateAuth.ts`. -/
def refreshTokenAuthFlow (users : StoreUsers) (req : InitiateAuthReq)
    (config : UserPoolConfig) (c : FlowCollab) : FlowOut :=
  match req.AuthParameters with
  | none => (.error (.invalidParameter "Missing required parameter authParameters"), [])
  | some ap =>
    if !strTruthy ap.REFRESH_TOKEN then
      (.error (.invalidParameter "AuthParameters REFRESH_TOKEN is required"), [])
    else
      match getUserByRefreshToken users (ap.REFRESH_TOKEN.getD "") with
      | none => (.error .notAuthorized, [])
      | some user =>
        (.ok
          { ChallengeName := none
            ChallengeParameters := none
            Session := none
            AuthenticationResult := some
              { AccessToken := some c.tokens.AccessToken
                IdToken := some c.tokens.IdToken
                RefreshToken := none } },
         [.generateTokens user.Username req.ClientId config.Id none "RefreshTokens"])

/-- The `InitiateAuth` target: pool resolution by client id (an input here,
`none` meaning the client is unknown), then dispatch on `AuthFlow`. -/
def initiateAuthTarget (poolForClient : Option (UserPoolConfig × StoreUsers))
    (req : InitiateAuthReq) (c : FlowCollab) : FlowOut :=
  match poolForClient with
  | none => (.error (.resourceNotFound "pool for client"), [])
  | some (config, users) =>
    if req.AuthFlow = "USER_PASSWORD_AUTH" then
      userPasswordAuthFlow config users req c
    else if req.AuthFlow = "REFRESH_TOKEN" || req.AuthFlow = "REFRESH_TOKEN_AUTH" then
      refreshTokenAuthFlow users req config c
    else
      (.error (.unsupported ("InitAuth with AuthFlow=" ++ req.AuthFlow)), [])

/-! Admin targets addressing a user by username, and `DescribeUserPool`. -/

/-- The response shape of `AdminGetUser`. -/
structure AdminGetUserResp where
  Enabled : Bool
  MFAOptions : Option (List MFAOptionT)
  UserAttributes : List UserAttribute
  UserCreateDate : Nat
  UserLastModifiedDate : Nat
  Username : String
  UserStatus : String
deriving DecidableEq, Repr

/-- The `AdminGetUser` target: pool resolution (an input; `none` when the
pool id is unknown), user resolution, then the projection of the user. -/
def adminGetUserTarget (pool : Option (UserPoolConfig × StoreUsers))
    (username : String) : Except CognitoError AdminGetUserResp :=
  match pool with
  | none => .error (.resourceNotFound "")
  | some (config, users) =>
    match getUserByUsername config users username with
    | none => .error (.userNotFound "User does not exist")
    | some user =>
        .ok
          { Enabled := user.Enabled
            MFAOptions := user.MFAOptions
            UserAttributes := user.Attributes
            UserCreateDate := user.UserCreateDate
            UserLastModifiedDate := user.UserLastModifiedDate
            Username := user.Username
            UserStatus := user.UserStatus }

/-- The `AdminDeleteUserAttributes` target; `now` is `clock.get()`. The
response body is empty, so the interesting output is the error or the
`saveUser` effect. -/
def adminDeleteUserAttributesTarget (pool : Option (UserPoolConfig × StoreUsers))
    (username : String) (userAttributeNames : List String) (now : Nat) :
    Except CognitoError Unit × List Effect :=
  match pool with
  | none => (.error (.resourceNotFound ""), [])
  | some (config, users) =>
    match getUserByUsername config users username with
    | none => (.error .notAuthorized, [])
    | some user =>
        (.ok (),
         [.saveUser
            { user with
              Attributes := attributesRemove user.Attributes userAttributeNames
              UserLastModifiedDate := now }])

/-- The `DescribeUserPool` target; `now` is `clock.get()`. -/
def describeUserPoolTarget (pool : Option UserPoolConfig) (userPoolId : String)
    (now : Nat) : Except CognitoError UserPoolConfig :=
  match pool with
  | none => .error (.resourceNotFound ("User pool " ++ userPoolId ++ " does not exist."))
  | some config =>
      .ok { config with CreationDate := some now, LastModifiedDate := some now }

/-! The response mapping of `LambdaService.invoke`. The transport invocation
and `JSON.parse` are external collaborators and appear as inputs. -/

/-- A parsed JSON value. -/
inductive Json where
  | null
  | bool (b : Bool)
  | num (n : Int)
  | str (s : String)
  | arr (xs : List Json)
  | obj (fields : List (String × Json))
deriving BEq, Repr

/-- JavaScript property access `j.response`: a `TypeError` (modelled as
`Except.error`) on `null`, the field for an object, `undefined` otherwise. -/
def jsonResponseField : Json → Except Unit (Option Json)
  | .null => .error ()
  | .obj fields => .ok ((fields.find? (fun p => p.1 = "response")).map (fun p => p.2))
  | _ => .ok none

/-- The wire response of the external function invocation. -/
structure InvocationResponse where
  StatusCode : Option Int
  Payload : Option String
  FunctionError : Option String
deriving Repr

/-- The response mapping of `LambdaService.invoke`: `functionName` is the
configured function for the trigger (`none` when unconfigured),
`transport` the outcome of the external call, and `parseJson` the
behaviour of `JSON.parse` on the payload string. -/
def lambdaInvoke (functionName : Option String)
    (transport : Except Unit InvocationResponse)
    (parseJson : String → Option Json) : Except CognitoError (Option Json) :=
  match functionName with
  | none => .error (.jsError "trigger not configured")
  | some _ =>
    match transport with
    | .error _ => .error .unexpectedLambdaException
    | .ok result =>
      if result.StatusCode = some 200 then
        match result.Payload with
        | none => .error .invalidLambdaResponse
        | some payload =>
          match parseJson payload with
          | none => .error .invalidLambdaResponse
          | some parsedPayload =>
            match jsonResponseField parsedPayload with
            | .error _ => .error .invalidLambdaResponse
            | .ok response => .ok response
      else .error (.userLambdaValidation result.FunctionError)

/-! Specification-side definitions, written from the spec's words, to be
compared with the source-side definitions above. -/

/-- Written from the spec's words for `getUserByUsername`: a direct key
lookup under `Users/<username>`, and on a miss the first user, in the
collection's insertion order, whose `sub` attribute matches, or whose
`email` attribute matches when the email alias is enabled, or whose
`phone_number` attribute matches when the phone alias is enabled. -/
def getUserByUsernameSpec (config : UserPoolConfig) (users : StoreUsers)
    (username : String) : Option User :=
  match storeGetUser users username with
  | some userByUsername => some userByUsername
  | none =>
      (users.map (fun p => p.2)).find? (fun user =>
        attributesIncludeMatch "sub" username user.Attributes ||
        ((config.UsernameAttributes.getD []).contains "email" &&
          attributesIncludeMatch "email" username user.Attributes) ||
        ((config.UsernameAttributes.getD []).contains "phone_number" &&
          attributesIncludeMatch "phone_number" username user.Attributes))

/-- Written from the claim's words for one appended attribute: a truthy
value replaces an existing entry of the same name in place or is added at
the end, a falsy value removes any entry of that name. -/
def attributesAppendStepSpec (l : List UserAttribute) (a : UserAttribute) :
    List UserAttribute :=
  if strTruthy a.Value then
    if l.any (fun x => x.Name = a.Name) then
      l.map (fun x => if x.Name = a.Name then ⟨a.Name, a.Value⟩ else x)
    else l ++ [⟨a.Name, a.Value⟩]
  else l.filter (fun x => x.Name ≠ a.Name)

/-- The MFA-challenge condition of `userPasswordAuthFlow` (lines 179-183). -/
def mfaChallengeRequired (config : UserPoolConfig) (user : User) : Bool :=
  (config.MfaConfiguration = some "OPTIONAL" &&
    !(user.MFAOptions.getD []).isEmpty) ||
  config.MfaConfiguration = some "ON"

/-- No refresh token string belongs to two distinct entries of the `Users`
collection. -/
def uniqueRefreshTokens (users : StoreUsers) : Prop :=
  ∀ p ∈ users, ∀ q ∈ users, p.1 ≠ q.1 →
    ∀ t ∈ p.2.RefreshTokens, t ∉ q.2.RefreshTokens

/-- Whether an operation outcome is a thrown `UserNotFoundError`. -/
def exceptIsUserNotFound : Except CognitoError Unit → Bool
  | .error e => e.isUserNotFound
  | .ok _ => false

/-- Whether an attribute-validation outcome is a normal return. -/
def exceptIsOkAttrs : Except CognitoError (List UserAttribute) → Bool
  | .error _ => false
  | .ok _ => true

/-! Concrete fixtures used by the witness theorems. -/

/-- A sample pool configuration with the email alias enabled and MFA off. -/
def sampleConfig : UserPoolConfig :=
  { Id := "local_pool"
    Name := some "Local Pool"
    UsernameAttributes := some ["email"]
    MfaConfiguration := none
    SchemaAttributes := some [⟨some "email", some true⟩]
    CreationDate := some 1000
    LastModifiedDate := some 2000 }

/-- A sample pool configuration with MFA `ON`. -/
def sampleConfigMfaOn : UserPoolConfig :=
  { sampleConfig with MfaConfiguration := some "ON" }

/-- A sample token triple. -/
def sampleTokens : TokenTriple :=
  { AccessToken := "access-token", IdToken := "id-token", RefreshToken := "refresh-token" }

/-- Sample collaborators for flow runs. -/
def sampleCollab : FlowCollab :=
  { otpCode := "123456"
    sessionId := "session-uuid"
    tokens := sampleTokens
    postAuthenticationEnabled := true
    userMigrationEnabled := false
    migrationResult := .error .notAuthorized }

/-- A confirmed sample user without MFA options. -/
def sampleUser : User :=
  { Username := "alice"
    UserCreateDate := 1
    UserLastModifiedDate := 2
    Enabled := true
    UserStatus := "CONFIRMED"
    Attributes := [⟨"sub", some "sub-uuid"⟩, ⟨"email", some "alice@example.com"⟩]
    MFAOptions := none
    Password := "hunter2"
    MFACode := none
    RefreshTokens := [] }

/-- A confirmed sample user with an SMS MFA option and a phone number. -/
def sampleUserMfa : User :=
  { sampleUser with
    Username := "bob"
    Attributes := [⟨"sub", some "sub-uuid-2"⟩, ⟨"phone_number", some "+15555550100"⟩]
    MFAOptions := some [⟨some "SMS", some "phone_number"⟩] }

/-- Sample auth parameters matching `sampleUser`'s password. -/
def sampleAuthParams : AuthParams :=
  { USERNAME := "alice", PASSWORD := some "hunter2", REFRESH_TOKEN := none }

/-! Theorems. -/

/-- The scan loop of `getUserByUsername` returns the first user, in
insertion order, satisfying the alias-match disjunction. -/
theorem scanUsersForAlias_eq_find (e p : Bool) (username : String) (l : List User) :
    scanUsersForAlias e p username l =
      l.find? (fun user =>
        attributesIncludeMatch "sub" username user.Attributes ||
        (e && attributesIncludeMatch "email" username user.Attributes) ||
        (p && attributesIncludeMatch "phone_number" username user.Attributes)) := by
  induction l with
  | nil => rfl
  | cons u rest ih =>
    simp only [scanUsersForAlias, List.find?_cons]
    cases h1 : attributesIncludeMatch "sub" username u.Attributes <;>
      cases h2 : e && attributesIncludeMatch "email" username u.Attributes <;>
        cases h3 : p && attributesIncludeMatch "phone_number" username u.Attributes <;>
          simp [h1, h2, h3, ih]

/-- C4: `getUserByUsername` first performs a direct key lookup under
`Users/<username>` and returns that user when present; on a miss it scans
the `Users` collection and returns the first user, in insertion order,
whose `sub` attribute matches, or whose `email` attribute matches when the
email alias is enabled, or whose `phone_number` attribute matches when the
phone alias is enabled, and `none` when nothing matches. -/
theorem getUserByUsername_matches_spec (config : UserPoolConfig)
    (users : StoreUsers) (username : String) :
    getUserByUsername config users username =
      getUserByUsernameSpec config users username := by
  unfold getUserByUsername getUserByUsernameSpec
  cases h : storeGetUser users username <;> simp [h, scanUsersForAlias_eq_find]

/-- C10: `DescribeUserPool` returns the stored configuration of an existing
pool with both `CreationDate` and `LastModifiedDate` replaced by the
clock's current time, independently of the stored dates. -/
theorem describeUserPool_dates_from_clock (config : UserPoolConfig)
    (userPoolId : String) (now : Nat) :
    (∃ out, describeUserPoolTarget (some config) userPoolId now = .ok out ∧
      out.CreationDate = some now ∧ out.LastModifiedDate = some now ∧
      out.Id = config.Id ∧ out.Name = config.Name ∧
      out.UsernameAttributes = config.UsernameAttributes ∧
      out.MfaConfiguration = config.MfaConfiguration ∧
      out.SchemaAttributes = config.SchemaAttributes) ∧
    (∀ d₁ d₂, describeUserPoolTarget
        (some { config with CreationDate := d₁, LastModifiedDate := d₂ })
        userPoolId now =
      describeUserPoolTarget (some config) userPoolId now) :=
  ⟨⟨_, rfl, rfl, rfl, rfl, rfl, rfl, rfl, rfl⟩, fun _ _ => rfl⟩

/-- C6: the response mapping of `LambdaService.invoke` on a configured
function: a transport failure raises `UnexpectedLambdaExceptionError`; a
response with `StatusCode` 200 has its payload JSON-decoded and the decoded
payload's `response` field is returned, an unparseable (or absent) payload
raising `InvalidLambdaResponseError`; any non-200 `StatusCode` raises
`UserLambdaValidationError` carrying the `FunctionError`. -/
theorem lambdaInvoke_response_mapping (fn : String) (parse : String → Option Json) :
    (lambdaInvoke (some fn) (.error ()) parse = .error .unexpectedLambdaException) ∧
    (∀ r : InvocationResponse, r.StatusCode = some 200 →
      (∀ payload fields, r.Payload = some payload →
        parse payload = some (.obj fields) →
        lambdaInvoke (some fn) (.ok r) parse =
          .ok ((fields.find? (fun q => q.1 = "response")).map (fun q => q.2))) ∧
      (∀ payload, r.Payload = some payload → parse payload = none →
        lambdaInvoke (some fn) (.ok r) parse = .error .invalidLambdaResponse) ∧
      (r.Payload = none →
        lambdaInvoke (some fn) (.ok r) parse = .error .invalidLambdaResponse)) ∧
    (∀ r : InvocationResponse, r.StatusCode ≠ some 200 →
      lambdaInvoke (some fn) (.ok r) parse =
        .error (.userLambdaValidation r.FunctionError)) := by
  refine ⟨rfl, ?_, ?_⟩
  · intro r h200
    refine ⟨?_, ?_, ?_⟩
    · intro payload fields hp hj
      simp [lambdaInvoke, h200, hp, hj, jsonResponseField]
    · intro payload hp hj
      simp [lambdaInvoke, h200, hp, hj]
    · intro hp
      simp [lambdaInvoke, h200, hp]
  · intro r hne
    simp [lambdaInvoke, hne]

/-- Witness for C6 at concrete inputs. -/
theorem lambdaInvoke_response_mapping_witness :
    lambdaInvoke (some "fn") (.ok ⟨some 200, some "payload", none⟩)
        (fun _ => some (.obj [("response", .str "ok")])) = .ok (some (.str "ok")) ∧
    lambdaInvoke (some "fn") (.ok ⟨some 500, none, some "Unhandled"⟩)
        (fun _ => none) = .error (.userLambdaValidation (some "Unhandled")) := by
  constructor
  · simpa using
      ((lambdaInvoke_response_mapping "fn"
          (fun _ => some (.obj [("response", .str "ok")]))).2.1
        ⟨some 200, some "payload", none⟩ rfl).1 "payload"
        [("response", .str "ok")] rfl rfl
  · exact (lambdaInvoke_response_mapping "fn" (fun _ => none)).2.2
      ⟨some 500, none, some "Unhandled"⟩ (by decide)

/-- C7 counterexample: `AdminDeleteUserAttributes` on a missing user of an
existing pool fails with `NotAuthorizedError`, not with
`UserNotFoundError` as the claim states. -/
theorem adminDeleteUserAttributes_missing_user_counterexample :
    (adminDeleteUserAttributesTarget (some (sampleConfig, [])) "alice" [] 0).1 =
      .error .notAuthorized ∧
    exceptIsUserNotFound
      (adminDeleteUserAttributesTarget (some (sampleConfig, [])) "alice" [] 0).1 =
      false :=
  ⟨rfl, rfl⟩

/-- C7 amended: on a missing user of an existing pool, `AdminGetUser` fails
with `UserNotFoundError` while `AdminDeleteUserAttributes` fails with
`NotAuthorizedError`. -/
theorem admin_missing_user_error_kinds (config : UserPoolConfig)
    (users : StoreUsers) (username : String) (names : List String) (now : Nat)
    (h : getUserByUsername config users username = none) :
    adminGetUserTarget (some (config, users)) username =
      .error (.userNotFound "User does not exist") ∧
    (adminDeleteUserAttributesTarget (some (config, users)) username names now).1 =
      .error .notAuthorized := by
  constructor <;> simp [adminGetUserTarget, adminDeleteUserAttributesTarget, h]

/-- Witness for C7's amended theorem at a concrete empty pool. -/
theorem admin_missing_user_error_kinds_witness :
    adminGetUserTarget (some (sampleConfig, [])) "carol" =
      .error (.userNotFound "User does not exist") ∧
    (adminDeleteUserAttributesTarget (some (sampleConfig, [])) "carol" [] 0).1 =
      .error .notAuthorized :=
  admin_missing_user_error_kinds sampleConfig [] "carol" [] 0 rfl

/-- C1: after user resolution the `USER_PASSWORD_AUTH` flow decides in
order: no user fails with `NotAuthorizedError`; a `RESET_REQUIRED` user
fails with `PasswordResetRequiredError`; a `FORCE_CHANGE_PASSWORD` user
gets a `NEW_PASSWORD_REQUIRED` challenge whose parameters hold
`USER_ID_FOR_SRP` (the username), `requiredAttributes` `"[]"`,
`userAttributes` (the JSON encoding of the attributes as a map) and the
fresh session UUID, independently of the supplied password; otherwise a
password mismatch fails with `InvalidPasswordError`. -/
theorem userPasswordAuth_decision_order (config : UserPoolConfig)
    (ap : AuthParams) (clientId : String) (meta : ClientMeta) (c : FlowCollab) :
    (userPasswordAuthDecision none ap config clientId meta c =
      (.error .notAuthorized, [])) ∧
    (∀ user : User, user.UserStatus = "RESET_REQUIRED" →
      userPasswordAuthDecision (some user) ap config clientId meta c =
        (.error .passwordResetRequired, [])) ∧
    (∀ user : User, user.UserStatus = "FORCE_CHANGE_PASSWORD" →
      userPasswordAuthDecision (some user) ap config clientId meta c =
        (.ok { ChallengeName := some "NEW_PASSWORD_REQUIRED"
               ChallengeParameters := some
                 [("USER_ID_FOR_SRP", user.Username),
                  ("requiredAttributes", "[]"),
                  ("userAttributes",
                    jsonStringifyRecord (attributesToRecord user.Attributes))]
               Session := some c.sessionId
               AuthenticationResult := none }, []) ∧
      (∀ ap' : AuthParams,
        userPasswordAuthDecision (some user) ap' config clientId meta c =
          userPasswordAuthDecision (some user) ap config clientId meta c)) ∧
    (∀ user : User, user.UserStatus ≠ "RESET_REQUIRED" →
      user.UserStatus ≠ "FORCE_CHANGE_PASSWORD" →
      ap.PASSWORD ≠ some user.Password →
      userPasswordAuthDecision (some user) ap config clientId meta c =
        (.error .invalidPassword, [])) := by
  refine ⟨rfl, ?_, ?_, ?_⟩
  · intro user h
    simp [userPasswordAuthDecision, h]
  · intro user h
    have hne : user.UserStatus ≠ "RESET_REQUIRED" := by simp [h]
    refine ⟨?_, ?_⟩
    · simp [userPasswordAuthDecision, h, hne, newPasswordChallenge]
    · intro ap'
      simp [userPasswordAuthDecision, h, hne]
  · intro user h1 h2 h3
    simp [userPasswordAuthDecision, h1, h2, h3]

/-- Witness for C1 at concrete users of each status. -/
theorem userPasswordAuth_decision_order_witness :
    userPasswordAuthDecision none sampleAuthParams sampleConfig "client" none
      sampleCollab = (.error .notAuthorized, []) ∧
    userPasswordAuthDecision (some { sampleUser with UserStatus := "RESET_REQUIRED" })
      sampleAuthParams sampleConfig "client" none sampleCollab =
        (.error .passwordResetRequired, []) ∧
    userPasswordAuthDecision
      (some { sampleUser with UserStatus := "FORCE_CHANGE_PASSWORD" })
      { sampleAuthParams with PASSWORD := some "other" } sampleConfig "client"
      none sampleCollab =
      userPasswordAuthDecision
        (some { sampleUser with UserStatus := "FORCE_CHANGE_PASSWORD" })
        sampleAuthParams sampleConfig "client" none sampleCollab ∧
    userPasswordAuthDecision (some sampleUser)
      { sampleAuthParams with PASSWORD := some "wrong" } sampleConfig "client"
      none sampleCollab = (.error .invalidPassword, []) := by
  refine ⟨?_, ?_, ?_, ?_⟩
  · exact (userPasswordAuth_decision_order sampleConfig sampleAuthParams "client"
      none sampleCollab).1
  · exact (userPasswordAuth_decision_order sampleConfig sampleAuthParams "client"
      none sampleCollab).2.1 _ rfl
  · exact ((userPasswordAuth_decision_order sampleConfig sampleAuthParams "client"
      none sampleCollab).2.2.1 _ rfl).2 _
  · exact (userPasswordAuth_decision_order sampleConfig
      { sampleAuthParams with PASSWORD := some "wrong" } "client" none
      sampleCollab).2.2.2 _ (by decide) (by decide) (by decide)

/-- The MFA challenge path never records a `PostAuthentication` invocation. -/
theorem verifyMfaChallenge_no_postAuthentication (user : User) (clientId : String)
    (config : UserPoolConfig) (meta : ClientMeta) (c : FlowCollab)
    (cid : String) (m : ClientMeta) (s un : String) :
    Effect.invokePostAuthentication cid m s un ∉
      (verifyMfaChallenge user clientId config meta c).2 := by
  unfold verifyMfaChallenge
  split
  · simp
  · split
    · simp
    · split
      · simp
      · split
        · simp
        · split <;> simp

/-- Reduction of the password-auth decision once the user is resolved, not
in a reset/new-password status, and the password matches: the branch taken
is decided by the MFA condition. -/
theorem userPasswordAuthDecision_after_password (user : User)
    (config : UserPoolConfig) (ap : AuthParams) (clientId : String)
    (meta : ClientMeta) (c : FlowCollab)
    (h1 : user.UserStatus ≠ "RESET_REQUIRED")
    (h2 : user.UserStatus ≠ "FORCE_CHANGE_PASSWORD")
    (hpw : ap.PASSWORD = some user.Password) :
    userPasswordAuthDecision (some user) ap config clientId meta c =
      if mfaChallengeRequired config user then
        verifyMfaChallenge user clientId config meta c
      else
        ((verifyPasswordChallenge user clientId config c).1,
         (verifyPasswordChallenge user clientId config c).2 ++
           (if c.postAuthenticationEnabled then
              [Effect.invokePostAuthentication clientId none
                "PostAuthentication_Authentication" user.Username]
            else [])) := by
  unfold userPasswordAuthDecision mfaChallengeRequired
  simp [h1, h2, hpw]

/-- C2: after a successful password check, the MFA condition (pool MFA `ON`,
or `OPTIONAL` with a non-empty `MFAOptions`) routes to the SMS challenge:
with an SMS option whose bound attribute is present, the flow delivers the
generated code, persists it as `MFACode`, and answers `SMS_MFA` with
delivery metadata, never invoking `PostAuthentication`; otherwise the flow
generates tokens with source `Authentication` and `clientMetadata`
`undefined`, stores the refresh token, invokes `PostAuthentication` when
enabled with `clientMetadata` `undefined`, and answers `PASSWORD_VERIFIER`
with the tokens. -/
theorem userPasswordAuth_mfa_branch (user : User) (config : UserPoolConfig)
    (ap : AuthParams) (clientId : String) (meta : ClientMeta) (c : FlowCollab)
    (h1 : user.UserStatus ≠ "RESET_REQUIRED")
    (h2 : user.UserStatus ≠ "FORCE_CHANGE_PASSWORD")
    (hpw : ap.PASSWORD = some user.Password) :
    (mfaChallengeRequired config user = true →
      (∀ cid m s un, Effect.invokePostAuthentication cid m s un ∉
        (userPasswordAuthDecision (some user) ap config clientId meta c).2) ∧
      (∀ opts sms dest, user.MFAOptions = some opts → opts.isEmpty = false →
        opts.find? (fun x => x.DeliveryMedium = some "SMS") = some sms →
        attributeValue sms.AttributeName user.Attributes = some dest →
        dest.isEmpty = false →
        userPasswordAuthDecision (some user) ap config clientId meta c =
          (.ok { ChallengeName := some "SMS_MFA"
                 ChallengeParameters := some
                   [("CODE_DELIVERY_DELIVERY_MEDIUM", "SMS"),
                    ("CODE_DELIVERY_DESTINATION", dest),
                    ("USER_ID_FOR_SRP", user.Username)]
                 Session := none
                 AuthenticationResult := none },
           [.deliverMessage "Authentication" clientId config.Id user.Username
              c.otpCode meta "SMS" sms.AttributeName dest,
            .saveUser { user with MFACode := some c.otpCode }]))) ∧
    (mfaChallengeRequired config user = false →
      userPasswordAuthDecision (some user) ap config clientId meta c =
        (.ok { ChallengeName := some "PASSWORD_VERIFIER"
               ChallengeParameters := some []
               Session := none
               AuthenticationResult := some
                 { AccessToken := some c.tokens.AccessToken
                   IdToken := some c.tokens.IdToken
                   RefreshToken := some c.tokens.RefreshToken } },
         [.generateTokens user.Username clientId config.Id none "Authentication",
          .storeToken c.tokens.RefreshToken user.Username] ++
           (if c.postAuthenticationEnabled then
              [Effect.invokePostAuthentication clientId none
                "PostAuthentication_Authentication" user.Username]
            else []))) := by
  rw [userPasswordAuthDecision_after_password user config ap clientId meta c h1 h2 hpw]
  constructor
  · intro hm
    rw [if_pos hm]
    constructor
    · intro cid m s un
      exact verifyMfaChallenge_no_postAuthentication user clientId config meta c cid m s un
    · intro opts sms dest hopts hne hf hd hde
      unfold verifyMfaChallenge
      simp [hopts, hne, hf, hd, hde]
  · intro hm
    rw [if_neg (by simp [hm])]
    rfl

/-- Witness for C2: the MFA path on a pool with MFA `ON`, and the token
path on a pool with MFA off. -/
theorem userPasswordAuth_mfa_branch_witness :
    userPasswordAuthDecision (some sampleUserMfa)
      { sampleAuthParams with USERNAME := "bob" } sampleConfigMfaOn "client"
      none sampleCollab =
      (.ok { ChallengeName := some "SMS_MFA"
             ChallengeParameters := some
               [("CODE_DELIVERY_DELIVERY_MEDIUM", "SMS"),
                ("CODE_DELIVERY_DESTINATION", "+15555550100"),
                ("USER_ID_FOR_SRP", "bob")]
             Session := none
             AuthenticationResult := none },
       [.deliverMessage "Authentication" "client" "local_pool" "bob" "123456"
          none "SMS" (some "phone_number") "+15555550100",
        .saveUser { sampleUserMfa with MFACode := some "123456" }]) ∧
    userPasswordAuthDecision (some sampleUser) sampleAuthParams sampleConfig
      "client" none sampleCollab =
      (.ok { ChallengeName := some "PASSWORD_VERIFIER"
             ChallengeParameters := some []
             Session := none
             AuthenticationResult := some
               { AccessToken := some "access-token"
                 IdToken := some "id-token"
                 RefreshToken := some "refresh-token" } },
       [.generateTokens "alice" "client" "local_pool" none "Authentication",
        .storeToken "refresh-token" "alice",
        .invokePostAuthentication "client" none
          "PostAuthentication_Authentication" "alice"]) := by
  constructor
  · simpa using
      ((userPasswordAuth_mfa_branch sampleUserMfa sampleConfigMfaOn
          { sampleAuthParams with USERNAME := "bob" } "client" none sampleCollab
          (by decide) (by decide) rfl).1 rfl).2
        [⟨some "SMS", some "phone_number"⟩] ⟨some "SMS", some "phone_number"⟩
        "+15555550100" rfl rfl rfl rfl rfl
  · simpa using
      (userPasswordAuth_mfa_branch sampleUser sampleConfig sampleAuthParams
          "client" none sampleCollab (by decide) (by decide) rfl).2 rfl

/-- C3: the `REFRESH_TOKEN`/`REFRESH_TOKEN_AUTH` flows require a truthy
`AuthParameters.REFRESH_TOKEN` (`InvalidParameterError` otherwise), fail
with `NotAuthorizedError` when no user holds the token, and otherwise
answer an `AuthenticationResult` holding only `AccessToken` and `IdToken`
with no new refresh token stored; every other `AuthFlow` fails with
`UnsupportedError`. -/
theorem initiateAuth_refresh_and_dispatch (config : UserPoolConfig)
    (users : StoreUsers) (clientId : String) (meta : ClientMeta) (c : FlowCollab) :
    (∀ flow, flow = "REFRESH_TOKEN" ∨ flow = "REFRESH_TOKEN_AUTH" →
      (∀ ap : AuthParams, strTruthy ap.REFRESH_TOKEN = false →
        initiateAuthTarget (some (config, users)) ⟨flow, clientId, some ap, meta⟩ c =
          (.error (.invalidParameter "AuthParameters REFRESH_TOKEN is required"), [])) ∧
      (∀ (ap : AuthParams) (t : String), ap.REFRESH_TOKEN = some t →
        t.isEmpty = false →
        (getUserByRefreshToken users t = none →
          initiateAuthTarget (some (config, users)) ⟨flow, clientId, some ap, meta⟩ c =
            (.error .notAuthorized, [])) ∧
        (∀ user, getUserByRefreshToken users t = some user →
          initiateAuthTarget (some (config, users)) ⟨flow, clientId, some ap, meta⟩ c =
            (.ok { ChallengeName := none
                   ChallengeParameters := none
                   Session := none
                   AuthenticationResult := some
                     { AccessToken := some c.tokens.AccessToken
                       IdToken := some c.tokens.IdToken
                       RefreshToken := none } },
             [.generateTokens user.Username clientId config.Id none "RefreshTokens"]) ∧
          (∀ t' un, Effect.storeToken t' un ∉
            (initiateAuthTarget (some (config, users))
              ⟨flow, clientId, some ap, meta⟩ c).2)))) ∧
    (∀ flow, flow ≠ "USER_PASSWORD_AUTH" → flow ≠ "REFRESH_TOKEN" →
      flow ≠ "REFRESH_TOKEN_AUTH" →
      ∀ apo : Option AuthParams,
        initiateAuthTarget (some (config, users)) ⟨flow, clientId, apo, meta⟩ c =
          (.error (.unsupported ("InitAuth with AuthFlow=" ++ flow)), [])) := by
  constructor
  · intro flow hflow
    constructor
    · intro ap hfalsy
      rcases hflow with h | h <;> subst h <;>
        simp [initiateAuthTarget, refreshTokenAuthFlow, hfalsy]
    · intro ap t htok hne
      have htruthy : strTruthy (some t) = true := by simp [strTruthy, hne]
      constructor
      · intro hnone
        rcases hflow with h | h <;> subst h <;>
          simp [initiateAuthTarget, refreshTokenAuthFlow, htok, htruthy, hnone]
      · intro user huser
        rcases hflow with h | h <;> subst h <;>
          constructor <;>
            simp [initiateAuthTarget, refreshTokenAuthFlow, htok, htruthy, huser]
  · intro flow h1 h2 h3 apo
    simp [initiateAuthTarget, h1, h2, h3]

/-- Witness for C3: a held token succeeds without a new refresh token, a
missing token parameter is rejected, and an unknown flow is unsupported. -/
theorem initiateAuth_refresh_and_dispatch_witness :
    initiateAuthTarget (some (sampleConfig, [("alice",
        { sampleUser with RefreshTokens := ["tok-1"] })]))
      ⟨"REFRESH_TOKEN", "client",
        some { USERNAME := "", PASSWORD := none, REFRESH_TOKEN := some "tok-1" },
        none⟩ sampleCollab =
      (.ok { ChallengeName := none
             ChallengeParameters := none
             Session := none
             AuthenticationResult := some
               { AccessToken := some "access-token"
                 IdToken := some "id-token"
                 RefreshToken := none } },
       [.generateTokens "alice" "client" "local_pool" none "RefreshTokens"]) ∧
    initiateAuthTarget (some (sampleConfig, []))
      ⟨"REFRESH_TOKEN_AUTH", "client",
        some { USERNAME := "", PASSWORD := none, REFRESH_TOKEN := none }, none⟩
      sampleCollab =
      (.error (.invalidParameter "AuthParameters REFRESH_TOKEN is required"), []) ∧
    initiateAuthTarget (some (sampleConfig, []))
      ⟨"CUSTOM_AUTH", "client", none, none⟩ sampleCollab =
      (.error (.unsupported "InitAuth with AuthFlow=CUSTOM_AUTH"), []) := by
  refine ⟨?_, ?_, ?_⟩
  · simpa using
      (((initiateAuth_refresh_and_dispatch sampleConfig
            [("alice", { sampleUser with RefreshTokens := ["tok-1"] })] "client"
            none sampleCollab).1 "REFRESH_TOKEN" (Or.inl rfl)).2
          { USERNAME := "", PASSWORD := none, REFRESH_TOKEN := some "tok-1" }
          "tok-1" rfl rfl).2
        { sampleUser with RefreshTokens := ["tok-1"] } rfl |>.1
  · exact ((initiateAuth_refresh_and_dispatch sampleConfig [] "client" none
        sampleCollab).1 "REFRESH_TOKEN_AUTH" (Or.inr rfl)).1
      { USERNAME := "", PASSWORD := none, REFRESH_TOKEN := none } rfl
  · simpa using
      (initiateAuth_refresh_and_dispatch sampleConfig [] "client" none
        sampleCollab).2 "CUSTOM_AUTH" (by decide) (by decide) (by decide) none

/-- The schema walk of `validatePermittedAttributeChanges` passes exactly
when the first schema entry found for each requested name is mutable. -/
theorem findSchemaError_eq_none_iff (schema : List SchemaAttribute)
    (req : List UserAttribute) :
    findSchemaError schema req = none ↔
      ∀ a ∈ req, ∃ s, schema.find? (fun x => x.Name = some a.Name) = some s ∧
        s.Mutable = some true := by
  induction req with
  | nil => simp [findSchemaError]
  | cons a rest ih =>
    simp only [findSchemaError, List.forall_mem_cons]
    cases hf : schema.find? (fun x => x.Name = some a.Name) with
    | none => simp [hf]
    | some s =>
      by_cases hm : s.Mutable = some true
      · simp [hf, hm, ih]
      · simp [hf, hm]

/-- Errors produced by the schema walk are `InvalidParameterError`s. -/
theorem findSchemaError_invalidParameter (schema : List SchemaAttribute)
    (req : List UserAttribute) (e : CognitoError)
    (h : findSchemaError schema req = some e) :
    ∃ msg, e = .invalidParameter msg := by
  induction req with
  | nil => simp [findSchemaError] at h
  | cons a rest ih =>
    rw [findSchemaError] at h
    split at h
    · exact ⟨_, (Option.some_inj.mp h).symm⟩
    · split at h
      · exact ih h
      · exact ⟨_, (Option.some_inj.mp h).symm⟩

/-- C5 counterexample: with a schema holding two entries named `email`, the
first immutable and the second mutable, the request `[email]` has a schema
entry of the same name that is mutable and satisfies the verified-pair
rules, yet the code rejects it, because the entry consulted is the first
one found. -/
theorem validatePermittedAttributeChanges_claim_counterexample :
    (∀ a ∈ [(⟨"email", some "x"⟩ : UserAttribute)],
      ∃ s ∈ [(⟨some "email", some false⟩ : SchemaAttribute),
             ⟨some "email", some true⟩],
        s.Name = some a.Name ∧ s.Mutable = some true) ∧
    (attributesInclude "email_verified" [⟨"email", some "x"⟩] = true →
      attributesInclude "email" [⟨"email", some "x"⟩] = true) ∧
    (attributesInclude "phone_number_verified" [⟨"email", some "x"⟩] = true →
      attributesInclude "phone_number" [⟨"email", some "x"⟩] = true) ∧
    validatePermittedAttributeChanges [⟨"email", some "x"⟩]
        [⟨some "email", some false⟩, ⟨some "email", some true⟩] =
      .error (.invalidParameter
        "user.email: Attribute cannot be updated. (changing an immutable attribute)") ∧
    exceptIsOkAttrs (validatePermittedAttributeChanges [⟨"email", some "x"⟩]
        [⟨some "email", some false⟩, ⟨some "email", some true⟩]) = false := by
  refine ⟨by decide, by decide, by decide, rfl, rfl⟩

/-- C5 amended: `validatePermittedAttributeChanges` returns the request
attributes unchanged if and only if for every requested attribute the first
schema entry with the same name exists and is mutable, `email_verified`
does not occur without `email`, and `phone_number_verified` does not occur
without `phone_number`; every other case throws `InvalidParameterError`,
and every list that passes has, for each of its attributes, a mutable
schema entry of the same name. -/
theorem validatePermittedAttributeChanges_characterization
    (req : List UserAttribute) (schema : List SchemaAttribute) :
    ((∃ l, validatePermittedAttributeChanges req schema = .ok l) ↔
      ((∀ a ∈ req, ∃ s, schema.find? (fun x => x.Name = some a.Name) = some s ∧
          s.Mutable = some true) ∧
       (attributesInclude "email_verified" req = true →
         attributesInclude "email" req = true) ∧
       (attributesInclude "phone_number_verified" req = true →
         attributesInclude "phone_number" req = true))) ∧
    (∀ l, validatePermittedAttributeChanges req schema = .ok l →
      l = req ∧ ∀ a ∈ req, ∃ s ∈ schema, s.Name = some a.Name ∧
        s.Mutable = some true) ∧
    (∀ e, validatePermittedAttributeChanges req schema = .error e →
      ∃ msg, e = .invalidParameter msg) := by
  refine ⟨?_, ?_, ?_⟩
  · constructor
    · rintro ⟨l, hl⟩
      unfold validatePermittedAttributeChanges at hl
      cases hfe : findSchemaError schema req with
      | some e => rw [hfe] at hl; exact absurd hl (by simp)
      | none =>
        rw [hfe] at hl
        refine ⟨(findSchemaError_eq_none_iff schema req).mp hfe, ?_, ?_⟩ <;>
          intro hin <;> by_contra hnot
        · have hne : attributesInclude "email" req = false := by
            revert hnot; cases attributesInclude "email" req <;> simp
          simp [hin, hne] at hl
        · have hne : attributesInclude "phone_number" req = false := by
            revert hnot; cases attributesInclude "phone_number" req <;> simp
          by_cases hb : (attributesInclude "email_verified" req &&
              !attributesInclude "email" req) = true
          · simp [hb] at hl
          · rw [Bool.not_eq_true] at hb
            simp [hb, hin, hne] at hl
    · rintro ⟨hall, hev, hpv⟩
      unfold validatePermittedAttributeChanges
      rw [(findSchemaError_eq_none_iff schema req).mpr hall]
      have h1 : (attributesInclude "email_verified" req &&
          !attributesInclude "email" req) = false := by
        cases he : attributesInclude "email_verified" req
        · simp
        · simp [hev he]
      have h2 : (attributesInclude "phone_number_verified" req &&
          !attributesInclude "phone_number" req) = false := by
        cases hp : attributesInclude "phone_number_verified" req
        · simp
        · simp [hpv hp]
      simp [h1, h2]
  · intro l hl
    unfold validatePermittedAttributeChanges at hl
    cases hfe : findSchemaError schema req with
    | some e => rw [hfe] at hl; exact absurd hl (by simp)
    | none =>
      rw [hfe] at hl
      have hall := (findSchemaError_eq_none_iff schema req).mp hfe
      constructor
      · by_cases hb1 : (attributesInclude "email_verified" req &&
            !attributesInclude "email" req) = true
        · simp [hb1] at hl
        · by_cases hb2 : (attributesInclude "phone_number_verified" req &&
              !attributesInclude "phone_number" req) = true
          · simp [hb1, hb2] at hl
          · simp [hb1, hb2] at hl
            exact hl.symm
      · intro a ha
        rcases hall a ha with ⟨s, hs, hm⟩
        exact ⟨s, List.mem_of_find?_eq_some hs, by simpa using List.find?_some hs, hm⟩
  · intro e he
    unfold validatePermittedAttributeChanges at he
    cases hfe : findSchemaError schema req with
    | some e' =>
      rw [hfe] at he
      exact (Except.error.injEq _ _ ▸ congrArg id he) ▸
        findSchemaError_invalidParameter schema req e'
          (by rw [hfe]) |>.imp (fun msg h => by
            cases he
            exact h)
    | none =>
      rw [hfe] at he
      by_cases hb1 : (attributesInclude "email_verified" req &&
          !attributesInclude "email" req) = true
      · rw [if_pos hb1] at he
        exact ⟨_, (Except.error.inj he).symm⟩
      · rw [if_neg hb1] at he
        by_cases hb2 : (attributesInclude "phone_number_verified" req &&
            !attributesInclude "phone_number" req) = true
        · rw [if_pos hb2] at he
          exact ⟨_, (Except.error.inj he).symm⟩
        · rw [if_neg hb2] at he
          exact absurd he (by simp)

/-- Witness for C5's amended theorem at a concrete passing request. -/
theorem validatePermittedAttributeChanges_characterization_witness :
    validatePermittedAttributeChanges [⟨"email", some "x"⟩]
        [⟨some "email", some true⟩] = .ok [⟨"email", some "x"⟩] ∧
    (∀ a ∈ [(⟨"email", some "x"⟩ : UserAttribute)],
      ∃ s ∈ [(⟨some "email", some true⟩ : SchemaAttribute)],
        s.Name = some a.Name ∧ s.Mutable = some true) := by
  have h := (validatePermittedAttributeChanges_characterization
      [⟨"email", some "x"⟩] [⟨some "email", some true⟩]).2.1
    [⟨"email", some "x"⟩] rfl
  exact ⟨rfl, h.2⟩

/-- Every entry of `storeSetUser users u` is either the saved entry or an
entry of `users` with a different key. -/
theorem mem_storeSetUser (users : StoreUsers) (u : User) (p : String × User)
    (hp : p ∈ storeSetUser users u) :
    p = (u.Username, u) ∨ (p ∈ users ∧ p.1 ≠ u.Username) := by
  unfold storeSetUser at hp
  by_cases h : users.any (fun q => q.1 = u.Username)
  · rw [if_pos h] at hp
    rcases List.mem_map.mp hp with ⟨q, hq, hfq⟩
    by_cases hq1 : q.1 = u.Username
    · left
      rw [← hfq]
      simp [hq1]
    · right
      rw [← hfq]
      simp only [if_neg hq1]
      exact ⟨hq, hq1⟩
  · rw [if_neg h] at hp
    rcases List.mem_append.mp hp with hin | hone
    · right
      refine ⟨hin, fun heq => h ?_⟩
      exact List.any_eq_true.mpr ⟨p, hin, by simp [heq]⟩
    · left
      simpa using hone

/-- The saved entry belongs to `storeSetUser users u`. -/
theorem self_mem_storeSetUser (users : StoreUsers) (u : User) :
    (u.Username, u) ∈ storeSetUser users u := by
  unfold storeSetUser
  by_cases h : users.any (fun q => q.1 = u.Username)
  · rw [if_pos h]
    rcases List.any_eq_true.mp h with ⟨q, hq, hq1⟩
    refine List.mem_map.mpr ⟨q, hq, ?_⟩
    simp only [decide_eq_true_eq] at hq1
    simp [hq1]
  · rw [if_neg h]
    simp

/-- C8: `storeRefreshToken` appends the given token to the given user's
`RefreshTokens` and persists the user, and it preserves the invariant that
a refresh token belongs to at most one entry of the `Users` collection,
provided the token is fresh (as a new UUID is) and the passed user's
existing tokens are its own. -/
theorem storeRefreshToken_preserves_uniqueness (users : StoreUsers)
    (token : String) (user : User)
    (hinv : uniqueRefreshTokens users)
    (hfresh : ∀ p ∈ users, token ∉ p.2.RefreshTokens)
    (howner : ∀ p ∈ users, p.1 ≠ user.Username →
      ∀ t ∈ user.RefreshTokens, t ∉ p.2.RefreshTokens) :
    uniqueRefreshTokens (storeRefreshToken users token user) ∧
    (user.Username, { user with RefreshTokens := user.RefreshTokens ++ [token] }) ∈
      storeRefreshToken users token user := by
  unfold storeRefreshToken
  refine ⟨?_, self_mem_storeSetUser users _⟩
  intro p hp q hq hne t ht
  have hmemp := mem_storeSetUser users _ p hp
  have hmemq := mem_storeSetUser users _ q hq
  rcases hmemp with hpu | ⟨hpin, hp1⟩ <;> rcases hmemq with hqu | ⟨hqin, hq1⟩
  · rw [hpu, hqu] at hne
    exact absurd rfl hne
  · rw [hpu] at ht
    simp only [List.mem_append, List.mem_singleton] at ht
    rcases ht with htu | htt
    · exact howner q hqin hq1 t htu
    · rw [htt]
      exact hfresh q hqin
  · rw [hqu]
    simp only [List.mem_append, List.mem_singleton, not_or]
    constructor
    · intro htu
      exact howner p hpin hp1 t htu ht
    · intro htt
      rw [htt] at ht
      exact hfresh p hpin ht
  · exact hinv p hpin q hqin hne t ht

/-- Witness for C8 at a concrete one-user store and fresh token. -/
theorem storeRefreshToken_preserves_uniqueness_witness :
    uniqueRefreshTokens (storeRefreshToken [("alice", sampleUser)] "tok-9" sampleUser) ∧
    ("alice", { sampleUser with RefreshTokens := ["tok-9"] }) ∈
      storeRefreshToken [("alice", sampleUser)] "tok-9" sampleUser := by
  have h := storeRefreshToken_preserves_uniqueness [("alice", sampleUser)]
    "tok-9" sampleUser
    (by unfold uniqueRefreshTokens; decide)
    (by decide)
    (by decide)
  exact ⟨h.1, by simpa using h.2⟩

/-- Keys after a record assignment: unchanged for an existing key, the new
key appended otherwise. -/
theorem map_fst_recordSet (r : List (String × Option String)) (k : String)
    (v : Option String) :
    (recordSet r k v).map (fun p => p.1) =
      if r.any (fun p => p.1 = k) then r.map (fun p => p.1)
      else r.map (fun p => p.1) ++ [k] := by
  unfold recordSet
  by_cases h : r.any (fun p => p.1 = k) = true
  · rw [if_pos h, if_pos h, List.map_map]
    refine List.map_congr_left ?_
    intro p _
    by_cases hp : p.1 = k
    · simp [hp]
    · simp [hp]
  · rw [if_neg h, if_neg h, List.map_append]
    rfl

/-- Record assignment preserves distinctness of keys. -/
theorem nodup_map_fst_recordSet (r : List (String × Option String)) (k : String)
    (v : Option String) (h : (r.map (fun p => p.1)).Nodup) :
    ((recordSet r k v).map (fun p => p.1)).Nodup := by
  rw [map_fst_recordSet]
  by_cases ha : r.any (fun p => p.1 = k) = true
  · rwa [if_pos ha]
  · rw [if_neg ha, List.nodup_append]
    refine ⟨h, List.nodup_singleton _, ?_⟩
    intro x hx hk
    simp only [List.mem_singleton] at hk
    subst hk
    rcases List.mem_map.mp hx with ⟨p, hp, hpk⟩
    exact ha (List.any_eq_true.mpr ⟨p, hp, by simp [hpk]⟩)

/-- Keys after a record deletion: the deleted key filtered out. -/
theorem map_fst_recordDelete (r : List (String × Option String)) (k : String) :
    (recordDelete r k).map (fun p => p.1) =
      (r.map (fun p => p.1)).filter (fun x => x ≠ k) := by
  unfold recordDelete
  rw [List.filter_map]
  rfl

/-- Record deletion preserves distinctness of keys. -/
theorem nodup_map_fst_recordDelete (r : List (String × Option String))
    (k : String) (h : (r.map (fun p => p.1)).Nodup) :
    ((recordDelete r k).map (fun p => p.1)).Nodup := by
  rw [map_fst_recordDelete]
  exact h.filter _

/-- The record built by `attributesToRecord` has distinct keys. -/
theorem nodup_map_fst_attributesToRecord (attrs : List UserAttribute) :
    ((attributesToRecord attrs).map (fun p => p.1)).Nodup := by
  have aux : ∀ (l : List UserAttribute) (acc : List (String × Option String)),
      (acc.map (fun p => p.1)).Nodup →
      ((l.foldl (fun acc attr => recordSet acc attr.Name attr.Value) acc).map
        (fun p => p.1)).Nodup := by
    intro l
    induction l with
    | nil => intro acc h; simpa using h
    | cons a rest ih =>
      intro acc h
      simp only [List.foldl_cons]
      exact ih _ (nodup_map_fst_recordSet _ _ _ h)
  exact aux attrs [] (by simp)

/-- The set-or-delete fold of `attributesAppend` preserves distinctness of
keys. -/
theorem nodup_map_fst_foldAppend (toAppend : List UserAttribute) :
    ∀ acc : List (String × Option String), (acc.map (fun p => p.1)).Nodup →
      ((toAppend.foldl (fun acc attr =>
          if strTruthy attr.Value then recordSet acc attr.Name attr.Value
          else recordDelete acc attr.Name) acc).map (fun p => p.1)).Nodup := by
  induction toAppend with
  | nil => intro acc h; simpa using h
  | cons a rest ih =>
    intro acc h
    simp only [List.foldl_cons]
    apply ih
    by_cases hv : strTruthy a.Value = true
    · rw [if_pos hv]
      exact nodup_map_fst_recordSet _ _ _ h
    · rw [if_neg hv]
      exact nodup_map_fst_recordDelete _ _ h

/-- Record assignment viewed through `attributesFromRecord`. -/
theorem fromRecord_recordSet (r : List (String × Option String)) (k : String)
    (v : Option String) :
    attributesFromRecord (recordSet r k v) =
      if (attributesFromRecord r).any (fun x => x.Name = k) then
        (attributesFromRecord r).map
          (fun x => if x.Name = k then ⟨k, v⟩ else x)
      else attributesFromRecord r ++ [⟨k, v⟩] := by
  have hany : ((attributesFromRecord r).any (fun x => x.Name = k)) =
      r.any (fun p => p.1 = k) := by
    induction r with
    | nil => rfl
    | cons p rest ih =>
      unfold attributesFromRecord at ih ⊢
      simp only [List.map_cons, List.any_cons]
      rw [ih]
  unfold recordSet
  by_cases h : r.any (fun p => p.1 = k) = true
  · rw [if_pos h, if_pos (by rw [hany]; exact h)]
    unfold attributesFromRecord
    rw [List.map_map, List.map_map]
    refine List.map_congr_left ?_
    intro p _
    by_cases hp : p.1 = k
    · simp [hp]
    · simp [hp]
  · rw [if_neg h, if_neg (by rw [hany]; exact h)]
    unfold attributesFromRecord
    rw [List.map_append]
    rfl

/-- Record deletion viewed through `attributesFromRecord`. -/
theorem fromRecord_recordDelete (r : List (String × Option String)) (k : String) :
    attributesFromRecord (recordDelete r k) =
      (attributesFromRecord r).filter (fun x => x.Name ≠ k) := by
  unfold recordDelete attributesFromRecord
  rw [List.filter_map]
  rfl

/-- One step of the `attributesAppend` fold viewed through
`attributesFromRecord` is the claim's step. -/
theorem fromRecord_step (r : List (String × Option String)) (a : UserAttribute) :
    attributesFromRecord
        (if strTruthy a.Value then recordSet r a.Name a.Value
         else recordDelete r a.Name) =
      attributesAppendStepSpec (attributesFromRecord r) a := by
  by_cases hv : strTruthy a.Value = true
  · rw [if_pos hv]
    unfold attributesAppendStepSpec
    rw [if_pos hv]
    exact fromRecord_recordSet r a.Name a.Value
  · rw [if_neg hv]
    unfold attributesAppendStepSpec
    rw [if_neg hv]
    exact fromRecord_recordDelete r a.Name

/-- The whole `attributesAppend` fold viewed through
`attributesFromRecord`. -/
theorem fromRecord_foldStep (toAppend : List UserAttribute) :
    ∀ r : List (String × Option String),
      attributesFromRecord (toAppend.foldl (fun acc attr =>
        if strTruthy attr.Value then recordSet acc attr.Name attr.Value
        else recordDelete acc attr.Name) r) =
      toAppend.foldl attributesAppendStepSpec (attributesFromRecord r) := by
  induction toAppend with
  | nil => intro r; rfl
  | cons a rest ih =>
    intro r
    simp only [List.foldl_cons]
    rw [ih, fromRecord_step]

/-- On a list with distinct names, `attributesToRecord` is the list of
name-value pairs. -/
theorem attributesToRecord_eq_pairs (attrs : List UserAttribute)
    (h : (attrs.map (fun a => a.Name)).Nodup) :
    attributesToRecord attrs = attrs.map (fun a => (a.Name, a.Value)) := by
  unfold attributesToRecord
  have aux : ∀ (l : List UserAttribute) (acc : List (String × Option String)),
      (∀ x ∈ l, ∀ p ∈ acc, p.1 ≠ x.Name) → (l.map (fun a => a.Name)).Nodup →
      l.foldl (fun acc attr => recordSet acc attr.Name attr.Value) acc =
        acc ++ l.map (fun a => (a.Name, a.Value)) := by
    intro l
    induction l with
    | nil => intro acc _ _; simp
    | cons a rest ih =>
      intro acc hdisj hnd
      simp only [List.map_cons, List.nodup_cons] at hnd
      obtain ⟨hna, hnd'⟩ := hnd
      simp only [List.foldl_cons]
      have hnofind : acc.any (fun p => p.1 = a.Name) = false := by
        cases hc : acc.any (fun p => p.1 = a.Name)
        · rfl
        · exfalso
          rcases List.any_eq_true.mp hc with ⟨p, hp, hpk⟩
          exact hdisj a (List.mem_cons_self a rest) p hp (by simpa using hpk)
      have hset : recordSet acc a.Name a.Value = acc ++ [(a.Name, a.Value)] := by
        unfold recordSet
        rw [if_neg (by simp [hnofind])]
      rw [hset, ih]
      · simp
      · intro x hx p hp
        rcases List.mem_append.mp hp with h1 | h2
        · exact hdisj x (List.mem_cons_of_mem _ hx) p h1
        · simp only [List.mem_singleton] at h2
          subst h2
          intro heq
          have heq' : a.Name = x.Name := heq
          apply hna
          rw [heq']
          exact List.mem_map.mpr ⟨x, hx, rfl⟩
      · exact hnd'
  simpa using aux attrs [] (by simp) h

/-- Round trip of a distinct-name attribute list through the record. -/
theorem fromRecord_attributesToRecord (attrs : List UserAttribute)
    (h : (attrs.map (fun a => a.Name)).Nodup) :
    attributesFromRecord (attributesToRecord attrs) = attrs := by
  rw [attributesToRecord_eq_pairs attrs h]
  unfold attributesFromRecord
  rw [List.map_map]
  have hcomp : ((fun p : String × Option String => (⟨p.1, p.2⟩ : UserAttribute)) ∘
      (fun a : UserAttribute => (a.Name, a.Value))) = id := funext fun a => rfl
  rw [hcomp, List.map_id]

/-- C9: `attributesAppend` always returns at most one entry per attribute
name, and on an input list with distinct names it acts as the left fold of
the claimed step: a truthy appended value replaces an existing entry of the
same name in place or is added at the end, and a falsy (absent or empty)
value removes any entry of that name. -/
theorem attributesAppend_characterization (attrs toAppend : List UserAttribute) :
    ((attributesAppend attrs toAppend).map (fun a => a.Name)).Nodup ∧
    ((attrs.map (fun a => a.Name)).Nodup →
      attributesAppend attrs toAppend =
        toAppend.foldl attributesAppendStepSpec attrs) := by
  constructor
  · unfold attributesAppend
    have hkeys : ∀ r : List (String × Option String),
        (attributesFromRecord r).map (fun a => a.Name) = r.map (fun p => p.1) := by
      intro r
      unfold attributesFromRecord
      rw [List.map_map]
      rfl
    rw [hkeys]
    exact nodup_map_fst_foldAppend toAppend _ (nodup_map_fst_attributesToRecord attrs)
  · intro h
    unfold attributesAppend
    rw [fromRecord_foldStep, fromRecord_attributesToRecord attrs h]

/-- Witness for C9 at a concrete list: a replacement in place, an addition
at the end, and a removal by an absent value. -/
theorem attributesAppend_characterization_witness :
    ((attributesAppend [⟨"email", some "a"⟩, ⟨"custom:x", some "p"⟩]
        [⟨"email", some "b"⟩, ⟨"custom:y", some "q"⟩, ⟨"custom:x", none⟩]).map
      (fun a => a.Name)).Nodup ∧
    attributesAppend [⟨"email", some "a"⟩, ⟨"custom:x", some "p"⟩]
        [⟨"email", some "b"⟩, ⟨"custom:y", some "q"⟩, ⟨"custom:x", none⟩] =
      [(⟨"email", some "b"⟩ : UserAttribute), ⟨"custom:y", some "q"⟩,
        ⟨"custom:x", none⟩].foldl attributesAppendStepSpec
        [⟨"email", some "a"⟩, ⟨"custom:x", some "p"⟩] :=
  ⟨(attributesAppend_characterization [⟨"email", some "a"⟩, ⟨"custom:x", some "p"⟩]
      [⟨"email", some "b"⟩, ⟨"custom:y", some "q"⟩, ⟨"custom:x", none⟩]).1,
   (attributesAppend_characterization [⟨"email", some "a"⟩, ⟨"custom:x", some "p"⟩]
      [⟨"email", some "b"⟩, ⟨"custom:y", some "q"⟩, ⟨"custom:x", none⟩]).2
    (by decide)⟩

end CognitoLocal
